import Mathlib

/-!
Shallow embedding of the py-gasbuddy client (`py_gasbuddy/__init__.py`,
`py_gasbuddy/cache.py`) and proofs about its normalization, error
classification, token-cache and request pipeline logic.

JSON values decoded by `json.loads` are modelled by `JsonVal`; Python
`dict.get`, subscripting, truthiness and `== 0` are embedded explicitly.
Crashes (uncaught Python exceptions) surface as `Option`/`Except` failures.
-/

namespace GasBuddy

/-- A decoded JSON value as produced by the Python `json.loads` call.
`pyObj` stands for an opaque non-JSON Python object (used when the code
places a caught exception object inside a result dict). Numbers are
modelled as integers; no claim depends on fractional values. -/
inductive JsonVal where
  | null : JsonVal
  | bool (b : Bool) : JsonVal
  | num (n : Int) : JsonVal
  | str (s : String) : JsonVal
  | arr (xs : List JsonVal) : JsonVal
  | obj (fields : List (String × JsonVal)) : JsonVal
  | pyObj (tag : String) : JsonVal

namespace JsonVal

/-- First-match association lookup on the field list of an object, `none` when
the value is not an object or the key is missing. -/
def lookup : JsonVal → String → Option JsonVal
  | .obj fields, k => go fields k
  | _, _ => none
where
  go : List (String × JsonVal) → String → Option JsonVal
  | [], _ => none
  | (k', v) :: rest, k => if k' = k then some v else go rest k

/-- Python `k in d` for an object. -/
def hasKey (v : JsonVal) (k : String) : Bool :=
  (v.lookup k).isSome

/-- Python `d.get(k, default)`: `none` models the `AttributeError` crash
when the receiver is not a dict. -/
def pyGet (v : JsonVal) (k : String) (default : JsonVal) : Option JsonVal :=
  match v with
  | .obj _ => some ((v.lookup k).getD default)
  | _ => none

/-- Python truthiness of a decoded value. -/
def pyTruthy : JsonVal → Bool
  | .null => false
  | .bool b => b
  | .num n => n ≠ 0
  | .str s => s ≠ ""
  | .arr xs => !xs.isEmpty
  | .obj fields => !fields.isEmpty
  | .pyObj _ => true

/-- Python `x == 0` on a decoded value (`0 == 0`, `0.0 == 0` and
`False == 0` are true; everything else compares unequal to `0`). -/
def pyEqZero : JsonVal → Bool
  | .num n => n = 0
  | .bool b => !b
  | _ => false

end JsonVal

/-- Python `x or {}`. -/
def pyOrEmptyObj (v : JsonVal) : JsonVal :=
  if v.pyTruthy then v else .obj []

/-- Embeds `GasBuddy._format_price_node` (py_gasbuddy/__init__.py:347-362):
reads the `credit` and `cash` sub-objects (`or {}`), extracts prices with
default `0`, and builds the flat record; `none` models the crash when a
`.get` receiver is not a dict. -/
def format_price_node (price_node : JsonVal) : Option JsonVal := do
  let creditRaw ← price_node.pyGet "credit" .null
  let cashRaw ← price_node.pyGet "cash" .null
  let credit_data := pyOrEmptyObj creditRaw
  let cash_data := pyOrEmptyObj cashRaw
  let credit_price ← credit_data.pyGet "price" (.num 0)
  let cash_price ← cash_data.pyGet "price" (.num 0)
  let nickname ← credit_data.pyGet "nickname" .null
  let posted ← credit_data.pyGet "postedTime" .null
  return .obj
    [ ("credit", nickname)
    , ("cash_price", if cash_price.pyEqZero then .null else cash_price)
    , ("price", if credit_price.pyEqZero then .null else credit_price)
    , ("last_updated", posted) ]

/-- Python exception classes relevant to the embedded code paths. -/
inductive PyExc where
  | keyError
  | typeError
  | indexError
  | valueError
  | attributeError
  deriving DecidableEq

/-- Python subscripting `v[k]` with a string key: value for a dict holding
the key, `KeyError` for a dict missing it, `TypeError` for every
non-dict receiver (lists and strings demand integer indices; scalars are
not subscriptable). -/
def pySubscript (v : JsonVal) (k : String) : Except PyExc JsonVal :=
  match v with
  | .obj _ =>
    match v.lookup k with
    | some x => .ok x
    | none => .error .keyError
  | _ => .error .typeError

/-- Python subscripting `v[0]`: first element of a list (`IndexError` when
empty), first character of a string (`IndexError` when empty), `KeyError`
for a dict without the integer key, `TypeError` otherwise. -/
def pySubscriptZero (v : JsonVal) : Except PyExc JsonVal :=
  match v with
  | .arr [] => .error .indexError
  | .arr (x :: _) => .ok x
  | .str s => if s.isEmpty then .error .indexError else .ok (.str (s.take 1))
  | .obj _ => .error .keyError
  | _ => .error .typeError

/-- Subscripting with the exception identity dropped. -/
def pyIndex (v : JsonVal) (k : String) : Option JsonVal :=
  (pySubscript v k).toOption

/-- Python `results[:limit]`: a prefix of `limit` elements when the bound
is non-negative, and all but the last `-limit` elements when it is
negative. -/
def pySliceTo (xs : List JsonVal) (limit : Int) : List JsonVal :=
  if 0 ≤ limit then xs.take limit.toNat
  else xs.take (xs.length - (-limit).toNat)

/-- Python dict assignment `d[k] = v` on an association list: replaces the
value in place when the key exists, appends otherwise. -/
def setKey : List (String × JsonVal) → String → JsonVal → List (String × JsonVal)
  | [], k, v => [(k, v)]
  | (k', v') :: rest, k, v =>
    if k' = k then (k', v) :: rest else (k', v') :: setKey rest k v

/-- The `for price in result["prices"]` loop body shared by
`price_lookup` and `_parse_results`: keys each formatted price node by its
`fuelProduct` identifier (modelled as a string, as in the upstream
schema). `none` models the crash paths (missing key, non-dict node). -/
def add_price_fields (fields : List (String × JsonVal)) :
    List JsonVal → Option (List (String × JsonVal))
  | [] => some fields
  | p :: rest =>
    match pyIndex p "fuelProduct" with
    | some (.str s) =>
      match format_price_node p with
      | some record => add_price_fields (setKey fields s record) rest
      | none => none
    | _ => none

/-- One iteration of the `for result in results[:limit]` loop of
`GasBuddy._parse_results` (py_gasbuddy/__init__.py:258-269): builds the
per-station `price_data` dict. -/
def station_record (result : JsonVal) : Option JsonVal := do
  let id ← pyIndex result "id"
  let pu ← pyIndex result "priceUnit"
  let cur ← pyIndex result "currency"
  let lat ← pyIndex result "latitude"
  let lon ← pyIndex result "longitude"
  let prices ← pyIndex result "prices"
  match prices with
  | .arr ps => do
    let fields ← add_price_fields
      [ ("station_id", id), ("unit_of_measure", pu), ("currency", cur)
      , ("latitude", lat), ("longitude", lon) ] ps
    return .obj fields
  | _ => none

/-- A Python `for`-loop that appends `f x` to an accumulator list,
aborting on the first crash. -/
def loop_collect (f : JsonVal → Option JsonVal) :
    List JsonVal → List JsonVal → Option (List JsonVal)
  | [], acc => some acc
  | x :: rest, acc =>
    match f x with
    | some r => loop_collect f rest (acc ++ [r])
    | none => none

/-- Specification-side companion of `loop_collect`: element-wise mapping
that fails when any element fails. -/
def mapOption (f : JsonVal → Option JsonVal) : List JsonVal → Option (List JsonVal)
  | [] => some []
  | x :: rest =>
    match f x, mapOption f rest with
    | some r, some rs => some (r :: rs)
    | _, _ => none

/-- The nested extraction
`response["data"]["locationBySearchTerm"]["stations"]["results"]`,
yielding the upstream result list. -/
def resultsOf (response : JsonVal) : Option (List JsonVal) := do
  let data ← pyIndex response "data"
  let loc ← pyIndex data "locationBySearchTerm"
  let stations ← pyIndex loc "stations"
  match ← pyIndex stations "results" with
  | .arr rs => some rs
  | _ => none

/-- Embeds `GasBuddy._parse_results` (py_gasbuddy/__init__.py:253-270): extracts
the result list, truncates with the Python slice `results[:limit]`, and
collects one record per station. -/
def parse_results (response : JsonVal) (limit : Int) : Option (List JsonVal) := do
  let results ← resultsOf response
  loop_collect station_record (pySliceTo results limit) []

/-- The nested extraction
`response["data"]["locationBySearchTerm"]["trends"]`, yielding the
upstream trend list. -/
def trendsOf (response : JsonVal) : Option (List JsonVal) := do
  let data ← pyIndex response "data"
  let loc ← pyIndex data "locationBySearchTerm"
  match ← pyIndex loc "trends" with
  | .arr ts => some ts
  | _ => none

/-- One iteration of the loop of `GasBuddy._parse_trends`
(py_gasbuddy/__init__.py:245-250). -/
def trend_record (trend : JsonVal) : Option JsonVal := do
  let today ← pyIndex trend "today"
  let low ← pyIndex trend "todayLow"
  let area ← pyIndex trend "areaName"
  return .obj [("average_price", today), ("lowest_price", low), ("area", area)]

/-- Embeds `GasBuddy._parse_trends` (py_gasbuddy/__init__.py:242-251). -/
def parse_trends (response : JsonVal) : Option (List JsonVal) := do
  let ts ← trendsOf response
  loop_collect trend_record ts []

/-- The result assembly of `GasBuddy.price_lookup_service`
(py_gasbuddy/__init__.py:232-240): `value["trend"]` is set only when the
parsed trend list is truthy, i.e. non-empty. -/
def price_lookup_service_value (response : JsonVal) (limit : Int) : Option JsonVal := do
  let result_list ← parse_results response limit
  let trend_data ← parse_trends response
  return if trend_data.isEmpty then .obj [("results", .arr result_list)]
    else .obj [("results", .arr result_list), ("trend", .arr trend_data)]

/-- A minimal well-formed station entry for concrete evaluations. -/
def sampleStation (i : Int) : JsonVal :=
  .obj [ ("id", .num i), ("priceUnit", .str "dollars_per_gallon")
       , ("currency", .str "USD"), ("latitude", .num 40), ("longitude", .num (-75))
       , ("prices", .arr []) ]

/-- The record `_parse_results` builds for `sampleStation i`. -/
def sampleStationRecord (i : Int) : JsonVal :=
  .obj [ ("station_id", .num i), ("unit_of_measure", .str "dollars_per_gallon")
       , ("currency", .str "USD"), ("latitude", .num 40), ("longitude", .num (-75)) ]

/-- A search payload holding three stations and no trend entries. -/
def searchResponse3 : JsonVal :=
  .obj [("data", .obj [("locationBySearchTerm", .obj
    [ ("stations", .obj [("results", .arr
        [sampleStation 1, sampleStation 2, sampleStation 3])])
    , ("trends", .arr []) ])])]

/-- The constant `ERROR_TIMEOUT` (py_gasbuddy/__init__.py:26). -/
def ERROR_TIMEOUT : String := "Timeout while updating"

/-- What `json.loads` made of the response text read inside
`process_request`. -/
inductive BodyRead where
  | jsonVal (v : JsonVal)
  | rawText (s : String)

/-- Outcome of the `session.post` block in `process_request`: a completed
HTTP response, a transport timeout (`TimeoutError`/`ServerTimeoutError`),
or an `aiohttp.ContentTypeError`. -/
inductive PostEvent where
  | completed (status : Int) (body : BodyRead)
  | timeout
  | contentTypeError (e : String)

/-- The value `process_request` returns, together with the observable
side effects: the resulting `_cf_last` flag and whether the GraphQL POST
was attempted at all. -/
structure PRRet where
  message : JsonVal
  cf_last : Option Bool
  posted : Bool

/-- Embeds `GasBuddy.process_request` (py_gasbuddy/__init__.py:56-110), a total
function of the token-acquisition outcome and the POST outcome: `hdrs`
is `none` when `_get_headers` raised `CSRFTokenMissing`, otherwise it
carries the `_cf_last` value left by `_get_headers`. Every outcome is
folded into a returned value; nothing escapes the function body. -/
def process_request (cf0 : Option Bool) (hdrs : Option (Option Bool))
    (post : PostEvent) : PRRet :=
  match hdrs with
  | none => ⟨.obj [("error", .str "Missing Token")], cf0, false⟩
  | some cf1 =>
    match post with
    | .timeout => ⟨.obj [("error", .str ERROR_TIMEOUT)], cf1, true⟩
    | .contentTypeError e => ⟨.obj [("error", .pyObj e)], cf1, true⟩
    | .completed status body =>
      let parsed : JsonVal × Option Bool :=
        match body with
        | .jsonVal v => (v, some true)
        | .rawText s => (.obj [("error", .str s)], some false)
      if status = 403 then ⟨parsed.1, some false, true⟩
      else if status ≠ 200 then ⟨.obj [("error", parsed.1)], some false, true⟩
      else ⟨parsed.1, parsed.2, true⟩

/-- How far the error-classification prelude of a lookup operation gets:
a raised `LibraryError` or `APIError` carrying the extracted message, an
uncaught Python exception, or fall-through to payload parsing. -/
inductive CheckOutcome where
  | libraryError (msg : JsonVal)
  | apiError (msg : JsonVal)
  | raised (e : PyExc)
  | proceed

/-- The `except (IndexError, ValueError, TypeError)` clause around
`response["errors"][0]["message"]` in `price_lookup`. -/
def fallback_catch (e : PyExc) : CheckOutcome :=
  if e = .indexError ∨ e = .valueError ∨ e = .typeError then
    .apiError (.str "Server side error occured.")
  else .raised e

/-- The error-classification prelude of `GasBuddy.price_lookup`
(py_gasbuddy/__init__.py:149-168): `LibraryError` on an `error` key;
on an `errors` key, message extraction tries `errors["message"]`
(catching `ValueError`/`TypeError`), then `errors[0]["message"]`
(catching `IndexError`/`ValueError`/`TypeError`), then the generic
string; any other exception (notably `KeyError`) escapes. -/
def price_lookup_check (response : JsonVal) : CheckOutcome :=
  if response.hasKey "error" then
    .libraryError ((response.lookup "error").getD .null)
  else if response.hasKey "errors" then
    let errs := (response.lookup "errors").getD .null
    match pySubscript errs "message" with
    | .ok m => .apiError m
    | .error e =>
      if e = .valueError ∨ e = .typeError then
        match pySubscriptZero errs with
        | .ok x =>
          match pySubscript x "message" with
          | .ok m => .apiError m
          | .error e2 => fallback_catch e2
        | .error e2 => fallback_catch e2
      else .raised e
  else .proceed

/-- The error-classification prelude of `GasBuddy.price_lookup_service`
(py_gasbuddy/__init__.py:217-230): unlike `price_lookup` it reads
`response["errors"]["message"]` with no `try` at all, so any exception
from the subscripts escapes. -/
def price_lookup_service_check (response : JsonVal) : CheckOutcome :=
  if response.hasKey "error" then
    .libraryError ((response.lookup "error").getD .null)
  else if response.hasKey "errors" then
    match pySubscript ((response.lookup "errors").getD .null) "message" with
    | .ok m => .apiError m
    | .error e => .raised e
  else .proceed

/-- Outcome of the variable-dict construction in `location_search`. -/
inductive SearchVarsOutcome where
  | vars (v : JsonVal)
  | missingSearchData

/-- The variable construction of `GasBuddy.location_search`
(py_gasbuddy/__init__.py:119-126): raises `MissingSearchData` when
neither a coordinate pair nor a zipcode is supplied. -/
def location_search_variables (lat lon zipcode : Option Int) : SearchVarsOutcome :=
  match lat, lon with
  | some la, some lo =>
    .vars (.obj [("maxAge", .num 0), ("lat", .num la), ("lng", .num lo)])
  | _, _ =>
    match zipcode with
    | some z => .vars (.obj [("maxAge", .num 0), ("search", .str (toString z))])
    | none => .missingSearchData

/-- The variable construction of `GasBuddy.price_lookup_service`
(py_gasbuddy/__init__.py:201-205): the same two branches but no `else`,
so missing search data leaves `variables` as the empty dict. -/
def price_lookup_service_variables (lat lon zipcode : Option Int) : JsonVal :=
  match lat, lon with
  | some la, some lo =>
    .obj [("maxAge", .num 0), ("lat", .num la), ("lng", .num lo)]
  | _, _ =>
    match zipcode with
    | some z => .obj [("maxAge", .num 0), ("search", .str (toString z))]
    | none => .obj []

/-- Modelled from the spec: `LOCATION_QUERY_PRICES`, one of the two fixed
GraphQL document strings of `py_gasbuddy/consts.py`, a file that is not
among the sources; the spec describes it as a fixed string template. -/
def LOCATION_QUERY_PRICES : String := "query LocationBySearchTerm ..."

/-- The query dict `price_lookup_service` posts
(py_gasbuddy/__init__.py:206-210). -/
def price_lookup_service_query (lat lon zipcode : Option Int) : JsonVal :=
  .obj [ ("operationName", .str "LocationBySearchTerm")
       , ("query", .str LOCATION_QUERY_PRICES)
       , ("variables", price_lookup_service_variables lat lon zipcode) ]

/-- Modelled from the spec: `TOKEN`, the token-field-name key of the
persisted cache record, defined in the missing `py_gasbuddy/consts.py`. -/
def TOKEN : String := "gbcsrf"

/-- Where a `GasBuddyCache` points (py_gasbuddy/cache.py:17-23): the
implementation-defined default next to the module, or a caller path. -/
inductive CachePath where
  | default
  | custom (p : String)
  deriving DecidableEq

/-- Embeds `GasBuddyCache.__init__`: a falsy (empty) path argument selects the
default location. -/
def gasBuddyCachePath (cache_file : String) : CachePath :=
  if cache_file = "" then .default else .custom cache_file

/-- On-disk state of one cache file: its byte size and the JSON value its
text parses to (`none` when the contents are not valid JSON). -/
structure CacheFile where
  size : Nat
  data : Option JsonVal

/-- The filesystem restricted to cache files. -/
abbrev FileSys := List (CachePath × CacheFile)

def fsGet : FileSys → CachePath → Option CacheFile
  | [], _ => none
  | (q, f) :: rest, p => if q = p then some f else fsGet rest p

def fsRemove : FileSys → CachePath → FileSys
  | [], _ => []
  | (q, f) :: rest, p =>
    if q = p then fsRemove rest p else (q, f) :: fsRemove rest p

def fsSet (fs : FileSys) (p : CachePath) (f : CacheFile) : FileSys :=
  (p, f) :: fsRemove fs p

/-- Embeds `GasBuddyCache.cache_exists` (py_gasbuddy/cache.py:50-58): the file
exists and holds more than 30 bytes. -/
def cache_exists (fs : FileSys) (p : CachePath) : Bool :=
  match fsGet fs p with
  | some f => 30 < f.size
  | none => false

/-- Embeds `GasBuddyCache.read_cache` (py_gasbuddy/cache.py:34-48): the parsed
JSON, or `{}` when the file is missing or not valid JSON. -/
def read_cache (fs : FileSys) (p : CachePath) : JsonVal :=
  match fsGet fs p with
  | some f => f.data.getD (.obj [])
  | none => .obj []

/-- Embeds `GasBuddyCache.clear_cache` (py_gasbuddy/cache.py:60-63): removes the
file only when `cache_exists` holds (a present but undersized file is
left in place). -/
def cache_clear (fs : FileSys) (p : CachePath) : FileSys :=
  if cache_exists fs p then fsRemove fs p else fs

/-- The `GasBuddy` client attributes that drive token acquisition. -/
structure ClientState where
  cache_file : String
  tag : JsonVal
  cf_last : Option Bool
  cache_manager : Option CachePath

/-- Embeds `GasBuddy.__init__` (py_gasbuddy/__init__.py:36-51). -/
def initClient (cache_file : String) : ClientState :=
  { cache_file := cache_file, tag := .str "", cf_last := none,
    cache_manager := none }

/-- Outcome of the landing-page GET (or solver POST) issued by
`_get_headers`: a non-200 page, a page matching the CSRF pattern (with
the byte size of the cache record it writes), a page without the token
marker (`CSRFTokenMissing`), or a caught transport timeout. -/
inductive FetchOutcome where
  | non200
  | tokenFound (tok : String) (writtenSize : Nat)
  | tokenNotFound
  | timeout

/-- Result of one `_get_headers` run: the new client state and
filesystem, whether the acquisition fetch was issued at all, and whether
`CSRFTokenMissing` propagated. -/
structure HeadersRet where
  state : ClientState
  fs : FileSys
  fetched : Bool
  tokenMissing : Bool

/-- Embeds `GasBuddy._get_headers` (py_gasbuddy/__init__.py:273-340), with the
network fetch outcome supplied as a parameter. The manager (re)creation
of lines 279-282 runs the `else` branch whenever a manager already
exists or no caller path was given; the solver configuration only
redirects the fetch and is absorbed into `FetchOutcome`. -/
def get_headers (st : ClientState) (fs : FileSys) (fetch : FetchOutcome) :
    HeadersRet :=
  let mgrPath : CachePath :=
    if st.cache_file ≠ "" ∧ st.cache_manager = none
    then gasBuddyCachePath st.cache_file else .default
  let st1 := { st with cache_manager := some mgrPath }
  let st2 :=
    if cache_exists fs mgrPath then
      let cache_data := read_cache fs mgrPath
      if cache_data.hasKey TOKEN then
        { st1 with tag := (cache_data.lookup TOKEN).getD .null }
      else { st1 with tag := .str "" }
    else { st1 with cf_last := some false }
  if st2.cf_last = none ∨ st2.cf_last = some true then
    ⟨st2, fs, false, false⟩
  else
    match fetch with
    | .non200 => ⟨st2, fs, true, false⟩
    | .timeout => ⟨st2, fs, true, false⟩
    | .tokenNotFound => ⟨st2, fs, true, true⟩
    | .tokenFound tok size =>
      ⟨{ st2 with tag := .str tok },
        fsSet fs mgrPath ⟨size, some (.obj [(TOKEN, .str tok)])⟩, true, false⟩

/-- Embeds `GasBuddy.clear_cache` (py_gasbuddy/__init__.py:342-345): a no-op
until some earlier request created the cache manager. -/
def client_clear_cache (st : ClientState) (fs : FileSys) : FileSys :=
  match st.cache_manager with
  | some p => cache_clear fs p
  | none => fs

/-- A filesystem whose default-location cache file already holds a valid
token record. -/
def warmFS : FileSys :=
  [(.default, ⟨40, some (.obj [(TOKEN, .str "cached-token")])⟩)]

/-- A client that has already run a request against the default cache
location. -/
def warmClient : ClientState :=
  { cache_file := "", tag := .str "cached-token", cf_last := some true,
    cache_manager := some .default }

/-- Anatomy of a successful `_format_price_node` run: both sub-objects
reduced by `or {}` must be dicts, and the result is the four-field record
built from them. -/
theorem format_price_node_some (fs : List (String × JsonVal)) (r : JsonVal)
    (h : format_price_node (.obj fs) = some r) :
    ∃ cfs dfs,
      pyOrEmptyObj (((JsonVal.obj fs).lookup "credit").getD .null) = .obj cfs ∧
      pyOrEmptyObj (((JsonVal.obj fs).lookup "cash").getD .null) = .obj dfs ∧
      r = .obj
        [ ("credit", ((JsonVal.obj cfs).lookup "nickname").getD .null)
        , ("cash_price",
            if (((JsonVal.obj dfs).lookup "price").getD (.num 0)).pyEqZero then .null
            else ((JsonVal.obj dfs).lookup "price").getD (.num 0))
        , ("price",
            if (((JsonVal.obj cfs).lookup "price").getD (.num 0)).pyEqZero then .null
            else ((JsonVal.obj cfs).lookup "price").getD (.num 0))
        , ("last_updated", ((JsonVal.obj cfs).lookup "postedTime").getD .null) ] := by
  unfold format_price_node at h
  cases hc : pyOrEmptyObj (((JsonVal.obj fs).lookup "credit").getD .null) with
  | obj cfs =>
    cases hd : pyOrEmptyObj (((JsonVal.obj fs).lookup "cash").getD .null) with
    | obj dfs =>
      refine ⟨cfs, dfs, rfl, rfl, ?_⟩
      simp [JsonVal.pyGet, hc, hd, bind, Option.bind] at h
      exact h.symm
    | _ => simp [JsonVal.pyGet, hc, hd, bind, Option.bind] at h
  | _ => simp [JsonVal.pyGet, hc, bind, Option.bind] at h

/-- Looking up `cash_price` in the record shape built by
`_format_price_node`. -/
theorem record_lookup_cash_price (a b c d : JsonVal) :
    (JsonVal.obj [("credit", a), ("cash_price", b), ("price", c),
      ("last_updated", d)]).lookup "cash_price" = some b := rfl

/-- Looking up `price` in the record shape built by `_format_price_node`. -/
theorem record_lookup_price (a b c d : JsonVal) :
    (JsonVal.obj [("credit", a), ("cash_price", b), ("price", c),
      ("last_updated", d)]).lookup "price" = some c := rfl

/-- C1 counterexample: a price node with no `cash` sub-object still gets a
`cash_price` field (with value null) in the normalized record; the claim
says the field is omitted entirely. -/
theorem C1_counterexample :
    (JsonVal.obj [("fuelProduct", JsonVal.str "regular_gas")]).hasKey "cash" = false ∧
    (format_price_node (.obj [("fuelProduct", .str "regular_gas")])).map
      (fun r => r.hasKey "cash_price") = some true :=
  ⟨rfl, rfl⟩

/-- C1 (amended): every successfully normalized price record contains the
`cash_price` field; its value is null when the source node lacks a
`cash` sub-object, when the `cash` sub-object is null, and when the price
of a present cash sub-object is exactly 0. The field is never omitted. -/
theorem C1_cash_price_field (node r : JsonVal)
    (h : format_price_node node = some r) :
    r.hasKey "cash_price" = true ∧
    (node.hasKey "cash" = false → r.lookup "cash_price" = some .null) ∧
    (node.lookup "cash" = some .null → r.lookup "cash_price" = some .null) ∧
    (∀ cash, node.lookup "cash" = some cash → cash.lookup "price" = some (.num 0) →
      r.lookup "cash_price" = some .null) := by
  cases node with
  | obj fs =>
    obtain ⟨cfs, dfs, hc, hd, hr⟩ := format_price_node_some fs r h
    subst hr
    refine ⟨rfl, ?_, ?_, ?_⟩
    · intro hk
      have hnone : (JsonVal.obj fs).lookup "cash" = none := by
        cases h' : (JsonVal.obj fs).lookup "cash" with
        | none => rfl
        | some v => rw [JsonVal.hasKey, h'] at hk; simp at hk
      rw [hnone] at hd
      simp only [Option.getD_none, pyOrEmptyObj, JsonVal.pyTruthy] at hd
      rw [if_neg (by simp)] at hd
      cases hd
      rw [record_lookup_cash_price]
      rfl
    · intro hcashnull
      rw [hcashnull] at hd
      simp only [Option.getD_some, pyOrEmptyObj, JsonVal.pyTruthy] at hd
      rw [if_neg (by simp)] at hd
      cases hd
      rw [record_lookup_cash_price]
      rfl
    · intro cash hcash hprice
      rw [hcash] at hd
      simp only [Option.getD_some, pyOrEmptyObj] at hd
      by_cases htr : cash.pyTruthy = true
      · rw [if_pos htr] at hd
        subst hd
        rw [record_lookup_cash_price, hprice]
        rfl
      · rw [if_neg htr] at hd
        cases hd
        rw [record_lookup_cash_price]
        rfl
  | null => simp [format_price_node, JsonVal.pyGet] at h
  | bool b => simp [format_price_node, JsonVal.pyGet] at h
  | num n => simp [format_price_node, JsonVal.pyGet] at h
  | str s => simp [format_price_node, JsonVal.pyGet] at h
  | arr xs => simp [format_price_node, JsonVal.pyGet] at h
  | pyObj t => simp [format_price_node, JsonVal.pyGet] at h

/-- C1 witness: instantiates `C1_cash_price_field` at a concrete node
lacking a `cash` sub-object. -/
theorem C1_cash_price_field_witness :
    ((JsonVal.obj [("credit", JsonVal.null), ("cash_price", JsonVal.null),
      ("price", JsonVal.null), ("last_updated", JsonVal.null)]).lookup "cash_price"
      = some JsonVal.null) :=
  (C1_cash_price_field (.obj [("fuelProduct", .str "regular_gas")])
    (.obj [("credit", .null), ("cash_price", .null), ("price", .null),
      ("last_updated", .null)]) (by rfl)).2.1 (by rfl)

/-- C8: in every successfully normalized price record the `price` field is
never the number 0, and it is null whenever the `credit` sub-object is
absent or null, or its `price` entry is absent, null, or exactly 0. -/
theorem C8_credit_zero_is_null (node r : JsonVal)
    (h : format_price_node node = some r) :
    r.lookup "price" ≠ some (.num 0) ∧
    ((node.lookup "credit" = none ∨ node.lookup "credit" = some .null ∨
      (∃ cfs, node.lookup "credit" = some (.obj cfs) ∧
        ((JsonVal.obj cfs).lookup "price" = none ∨
         (JsonVal.obj cfs).lookup "price" = some .null ∨
         (JsonVal.obj cfs).lookup "price" = some (.num 0)))) →
      r.lookup "price" = some .null) := by
  cases node with
  | obj fs =>
    obtain ⟨cfs, dfs, hc, hd, hr⟩ := format_price_node_some fs r h
    subst hr
    constructor
    · rw [record_lookup_price]
      intro heq
      rcases Option.some.inj heq with h0
      by_cases hz :
          ((((JsonVal.obj cfs).lookup "price").getD (.num 0)).pyEqZero = true)
      · rw [if_pos hz] at h0
        exact JsonVal.noConfusion h0
      · rw [if_neg hz] at h0
        rw [h0] at hz
        exact hz rfl
    · intro hcases
      rw [record_lookup_price]
      have hnull : (((JsonVal.obj cfs).lookup "price").getD (.num 0)).pyEqZero = true ∨
          ((JsonVal.obj cfs).lookup "price").getD (.num 0) = .null := by
        rcases hcases with habs | hnul | ⟨cfs', hcred, hp⟩
        · rw [habs] at hc
          simp only [Option.getD_none, pyOrEmptyObj, JsonVal.pyTruthy] at hc
          rw [if_neg (by simp)] at hc
          cases hc
          exact Or.inl rfl
        · rw [hnul] at hc
          simp only [Option.getD_some, pyOrEmptyObj, JsonVal.pyTruthy] at hc
          rw [if_neg (by simp)] at hc
          cases hc
          exact Or.inl rfl
        · rw [hcred] at hc
          simp only [Option.getD_some, pyOrEmptyObj] at hc
          by_cases htr : (JsonVal.obj cfs').pyTruthy = true
          · rw [if_pos htr] at hc
            rcases JsonVal.obj.inj hc with hfs
            subst hfs
            rcases hp with hp | hp | hp
            · rw [hp]; exact Or.inl rfl
            · rw [hp]; exact Or.inr rfl
            · rw [hp]; exact Or.inl rfl
          · rw [if_neg htr] at hc
            cases hc
            exact Or.inl rfl
      rcases hnull with hz | hn
      · rw [if_pos hz]
      · rw [hn] at *
        rw [if_neg (by simp [JsonVal.pyEqZero])]
  | null => simp [format_price_node, JsonVal.pyGet] at h
  | bool b => simp [format_price_node, JsonVal.pyGet] at h
  | num n => simp [format_price_node, JsonVal.pyGet] at h
  | str s => simp [format_price_node, JsonVal.pyGet] at h
  | arr xs => simp [format_price_node, JsonVal.pyGet] at h
  | pyObj t => simp [format_price_node, JsonVal.pyGet] at h

/-- C8 witness: instantiates `C8_credit_zero_is_null` at a node whose
credit price is exactly 0. -/
theorem C8_credit_zero_is_null_witness :
    ((JsonVal.obj [("credit", JsonVal.null), ("cash_price", JsonVal.null),
      ("price", JsonVal.null), ("last_updated", JsonVal.null)]).lookup "price"
      ≠ some (JsonVal.num 0)) ∧
    ((JsonVal.obj [("credit", JsonVal.null), ("cash_price", JsonVal.null),
      ("price", JsonVal.null), ("last_updated", JsonVal.null)]).lookup "price"
      = some JsonVal.null) := by
  have h := C8_credit_zero_is_null
    (.obj [("credit", .obj [("price", .num 0), ("nickname", .null)])])
    (.obj [("credit", .null), ("cash_price", .null), ("price", .null),
      ("last_updated", .null)]) (by rfl)
  exact ⟨h.1, h.2 (Or.inr (Or.inr ⟨[("price", .num 0), ("nickname", .null)], rfl,
    Or.inr (Or.inr rfl)⟩))⟩

/-- The append-style loop equals element-wise mapping prefixed by the
accumulator. -/
theorem loop_collect_eq_mapOption (f : JsonVal → Option JsonVal)
    (xs acc : List JsonVal) :
    loop_collect f xs acc = (mapOption f xs).map (acc ++ ·) := by
  induction xs generalizing acc with
  | nil => simp [loop_collect, mapOption]
  | cons x rest ih =>
    cases hfx : f x with
    | none =>
      simp only [loop_collect, mapOption, hfx]
      cases mapOption f rest <;> simp
    | some r =>
      simp only [loop_collect, mapOption, hfx]
      rw [ih]
      cases mapOption f rest <;> simp

/-- Element-wise mapping preserves length. -/
theorem mapOption_length (f : JsonVal → Option JsonVal) (xs ys : List JsonVal)
    (h : mapOption f xs = some ys) : ys.length = xs.length := by
  induction xs generalizing ys with
  | nil =>
    simp only [mapOption, Option.some.injEq] at h
    subst h; rfl
  | cons x rest ih =>
    simp only [mapOption] at h
    cases hfx : f x with
    | none => rw [hfx] at h; exact absurd h (by simp)
    | some r =>
      rw [hfx] at h
      cases hrest : mapOption f rest with
      | none => rw [hrest] at h; exact absurd h (by simp)
      | some rs =>
        rw [hrest, Option.some.injEq] at h
        subst h
        simp [ih rs hrest]

/-- C2 counterexample: a payload with three stations and limit `-1` yields
two entries (Python slice `results[:-1]`), not the empty sequence the
claim demands for every non-positive limit. -/
theorem C2_counterexample :
    (parse_results searchResponse3 (-1)).map List.length = some 2 ∧
    (parse_results searchResponse3 (-1)).map List.isEmpty = some false :=
  ⟨rfl, rfl⟩

/-- C2 (amended): `_parse_results` maps the Python slice `results[:limit]`
element-wise in upstream order; for `limit ≥ 0` it returns exactly
`min(limit, len(results))` entries, while a negative limit keeps all but
the last `-limit` entries (`limit = 0` alone yields the empty sequence
among non-positive limits). -/
theorem C2_parse_results_count (response : JsonVal) (limit : Int)
    (rs out : List JsonVal)
    (hres : resultsOf response = some rs)
    (hout : parse_results response limit = some out) :
    mapOption station_record (pySliceTo rs limit) = some out ∧
    (0 ≤ limit → out.length = min limit.toNat rs.length) ∧
    (limit < 0 → out.length = rs.length - (-limit).toNat) := by
  have hmap : mapOption station_record (pySliceTo rs limit) = some out := by
    unfold parse_results at hout
    rw [hres] at hout
    simp only [Option.bind_eq_bind, Option.some_bind] at hout
    rw [loop_collect_eq_mapOption] at hout
    cases hmo : mapOption station_record (pySliceTo rs limit) with
    | none => rw [hmo] at hout; exact absurd hout (by simp)
    | some l =>
      rw [hmo] at hout
      simp at hout
      rw [hout]
  have hlen : out.length = (pySliceTo rs limit).length :=
    mapOption_length _ _ _ hmap
  refine ⟨hmap, ?_, ?_⟩
  · intro h0
    rw [hlen, pySliceTo, if_pos h0, List.length_take]
  · intro hneg
    rw [hlen, pySliceTo, if_neg (by omega), List.length_take]
    omega

/-- C2 witness: instantiates `C2_parse_results_count` on the concrete
three-station payload with limit 5. -/
theorem C2_parse_results_count_witness :
    [sampleStationRecord 1, sampleStationRecord 2, sampleStationRecord 3].length
      = min (5 : Int).toNat
          [sampleStation 1, sampleStation 2, sampleStation 3].length :=
  (C2_parse_results_count searchResponse3 5
    [sampleStation 1, sampleStation 2, sampleStation 3]
    [sampleStationRecord 1, sampleStationRecord 2, sampleStationRecord 3]
    (by rfl) (by rfl)).2.1 (by decide)

/-- C5 counterexample: a successful area lookup whose upstream trend list
is empty produces a value with no `trend` key at all, not an empty
sequence as the claim states. -/
theorem C5_counterexample :
    (price_lookup_service_value searchResponse3 5).map
      (fun v => v.hasKey "trend") = some false := rfl

/-- C5 (amended): `_parse_trends` maps each upstream trend entry in order
to `{average_price, lowest_price, area}` and preserves the count, but
`price_lookup_service` includes the `trend` field only when the trend
list is non-empty; an empty upstream trend list leaves the field absent. -/
theorem C5_trend_assembly (response : JsonVal) (limit : Int)
    (ts td : List JsonVal) (out : JsonVal)
    (hts : trendsOf response = some ts)
    (htd : parse_trends response = some td)
    (hout : price_lookup_service_value response limit = some out) :
    mapOption trend_record ts = some td ∧
    td.length = ts.length ∧
    (td = [] → out.hasKey "trend" = false) ∧
    (td ≠ [] → out.lookup "trend" = some (.arr td)) := by
  have hmap : mapOption trend_record ts = some td := by
    unfold parse_trends at htd
    rw [hts] at htd
    simp only [Option.bind_eq_bind, Option.some_bind] at htd
    rw [loop_collect_eq_mapOption] at htd
    cases hmo : mapOption trend_record ts with
    | none => rw [hmo] at htd; exact absurd htd (by simp)
    | some l =>
      rw [hmo] at htd
      simp at htd
      rw [htd]
  refine ⟨hmap, mapOption_length _ _ _ hmap, ?_, ?_⟩ <;>
  · intro hc
    unfold price_lookup_service_value at hout
    cases hpr : parse_results response limit with
    | none => rw [hpr] at hout; exact absurd hout (by simp)
    | some result_list =>
      rw [hpr, htd] at hout
      simp only [Option.bind_eq_bind, Option.some_bind, Option.pure_def,
        Option.some.injEq] at hout
      first
      | (cases hc; simp only [List.isEmpty_nil, if_pos] at hout; rw [← hout]; rfl)
      | (rw [if_neg (by simpa using hc)] at hout; rw [← hout]; rfl)

/-- C5 witness: instantiates `C5_trend_assembly` on the concrete payload
with an empty upstream trend list. -/
theorem C5_trend_assembly_witness :
    (JsonVal.obj [("results", .arr [sampleStationRecord 1, sampleStationRecord 2,
      sampleStationRecord 3])]).hasKey "trend" = false :=
  (C5_trend_assembly searchResponse3 5 [] []
    (.obj [("results", .arr [sampleStationRecord 1, sampleStationRecord 2,
      sampleStationRecord 3])])
    (by rfl) (by rfl) (by rfl)).2.2.1 rfl

/-- C3 counterexample: a 403 whose body parses as JSON marks the token
stale but returns the parsed body unchanged — no `error` key, contrary to
the claimed generic error result. -/
theorem C3_counterexample :
    (process_request (some true) (some (some true))
      (.completed 403 (.jsonVal (.obj [("data", .null)])))).message.hasKey "error"
      = false ∧
    (process_request (some true) (some (some true))
      (.completed 403 (.jsonVal (.obj [("data", .null)])))).cf_last = some false :=
  ⟨rfl, rfl⟩

/-- C3 (amended): every completed 403 marks the token stale
(`_cf_last = False`, forcing re-acquisition on the next call); the
returned value is an `{error: raw-text}` result only when the body failed
JSON decoding, while a JSON body is returned as-is. -/
theorem C3_forbidden_status (cf0 cf1 : Option Bool) (status : Int)
    (body : BodyRead) (hs : status = 403) :
    (process_request cf0 (some cf1) (.completed status body)).cf_last
      = some false ∧
    (process_request cf0 (some cf1) (.completed status body)).message
      = (match body with
         | .jsonVal v => v
         | .rawText s => .obj [("error", .str s)]) := by
  subst hs
  cases body <;> exact ⟨rfl, rfl⟩

/-- C3 witness: instantiates `C3_forbidden_status` on a 403 with a
non-JSON (challenge HTML) body. -/
theorem C3_forbidden_status_witness :
    (process_request none (some (some true))
      (.completed 403 (.rawText "challenge"))).cf_last = some false ∧
    (process_request none (some (some true))
      (.completed 403 (.rawText "challenge"))).message
      = .obj [("error", .str "challenge")] :=
  C3_forbidden_status none (some true) 403 (.rawText "challenge") rfl

/-- C9: `process_request` is a total function of the acquisition and POST
outcomes — no failure escapes it. When token acquisition raises
`CSRFTokenMissing`, no POST is attempted and the result is
`{"error": "Missing Token"}`; a transport timeout during the POST becomes
`{"error": "Timeout while updating"}`. -/
theorem C9_no_raise (cf0 cf1 : Option Bool) (post : PostEvent) :
    (process_request cf0 none post).posted = false ∧
    (process_request cf0 none post).message
      = .obj [("error", .str "Missing Token")] ∧
    (process_request cf0 (some cf1) .timeout).message
      = .obj [("error", .str ERROR_TIMEOUT)] :=
  ⟨rfl, rfl, rfl⟩

/-- C4 counterexample: a 200 payload whose `errors` value is an array of
objects with a message makes `price_lookup_service` raise `TypeError`
(list indices must be integers), not `APIError`. -/
theorem C4_counterexample :
    price_lookup_service_check
      (.obj [("errors", .arr [.obj [("message", .str "Fake Error")]])])
      = .raised .typeError := rfl

/-- C4 (amended): on a decoded 200 payload with an `errors` key (and no
`error` key), `price_lookup` raises `APIError` through the fallback chain
object-with-message → first-array-element-with-message → generic string,
while `price_lookup_service` raises `APIError` only when
`errors["message"]` itself succeeds and lets the `TypeError` from an
array-shaped `errors` escape. -/
theorem pySubscript_arr (xs : List JsonVal) (k : String) :
    pySubscript (.arr xs) k = .error .typeError := rfl

theorem pySubscriptZero_cons (x : JsonVal) (xs : List JsonVal) :
    pySubscriptZero (.arr (x :: xs)) = .ok x := rfl

theorem pySubscriptZero_nil : pySubscriptZero (.arr []) = .error .indexError := rfl

theorem C4_errors_classification (response errs : JsonVal)
    (hne : response.hasKey "error" = false)
    (he : response.lookup "errors" = some errs) :
    (∀ m, pySubscript errs "message" = .ok m →
      price_lookup_check response = .apiError m ∧
      price_lookup_service_check response = .apiError m) ∧
    (∀ xs, errs = .arr xs →
      price_lookup_service_check response = .raised .typeError) ∧
    (∀ x xs m, errs = .arr (x :: xs) → pySubscript x "message" = .ok m →
      price_lookup_check response = .apiError m) ∧
    (errs = .arr [] →
      price_lookup_check response = .apiError (.str "Server side error occured.")) := by
  have hk : response.hasKey "errors" = true := by
    rw [JsonVal.hasKey, he]; rfl
  have hg : (response.lookup "errors").getD .null = errs := by rw [he]; rfl
  refine ⟨?_, ?_, ?_, ?_⟩
  · intro m hm
    constructor <;>
      simp [price_lookup_check, price_lookup_service_check, hne, hk, hg, hm]
  · intro xs hxs
    subst hxs
    simp [price_lookup_service_check, hne, hk, hg, pySubscript_arr]
  · intro x xs m hxs hm
    subst hxs
    simp [price_lookup_check, hne, hk, hg, pySubscript_arr,
      pySubscriptZero_cons, hm]
  · intro hxs
    subst hxs
    simp [price_lookup_check, hne, hk, hg, pySubscript_arr,
      pySubscriptZero_nil, fallback_catch]

/-- C4 witness: instantiates `C4_errors_classification` on the concrete
payload whose `errors` is an array of one message-carrying object. -/
theorem C4_errors_classification_witness :
    price_lookup_check
      (.obj [("errors", .arr [.obj [("message", .str "Fake Error")]])])
      = .apiError (.str "Fake Error") :=
  (C4_errors_classification
    (.obj [("errors", .arr [.obj [("message", .str "Fake Error")]])])
    (.arr [.obj [("message", .str "Fake Error")]]) rfl rfl).2.2.1
    (.obj [("message", .str "Fake Error")]) [] (.str "Fake Error") rfl rfl

/-- C10: with neither coordinates nor zipcode, `price_lookup_service`
performs no validation and builds its GraphQL query with an empty
`variables` dict, whereas `location_search` raises `MissingSearchData`
in the same situation. -/
theorem C10_no_search_data_validation :
    price_lookup_service_query none none none
      = .obj [ ("operationName", .str "LocationBySearchTerm")
             , ("query", .str LOCATION_QUERY_PRICES)
             , ("variables", .obj []) ] ∧
    location_search_variables none none none = .missingSearchData :=
  ⟨rfl, rfl⟩

/-- Removing a path really removes it. -/
theorem fsGet_fsRemove (fs : FileSys) (p : CachePath) :
    fsGet (fsRemove fs p) p = none := by
  induction fs with
  | nil => rfl
  | cons hd rest ih =>
    obtain ⟨q, f⟩ := hd
    by_cases hq : q = p
    · simp [fsRemove, hq, ih]
    · simp [fsRemove, fsGet, hq, ih]

/-- After `clear_cache` runs on a path, `cache_exists` is false there:
either the file was removed, or it already failed the size check. -/
theorem cache_exists_clear (fs : FileSys) (p : CachePath) :
    cache_exists (cache_clear fs p) p = false := by
  unfold cache_clear
  by_cases h : cache_exists fs p = true
  · rw [if_pos h]
    unfold cache_exists
    rw [fsGet_fsRemove]
  · rw [if_neg h]
    simpa using h

/-- C6 counterexample: on a fresh instance (no cache manager yet) with a
valid token file already on disk, `clear_cache` is a no-op and the next
operation adopts the cached token without any acquisition fetch. -/
theorem C6_counterexample :
    client_clear_cache (initClient "") warmFS = warmFS ∧
    (get_headers (initClient "") (client_clear_cache (initClient "") warmFS)
      .tokenNotFound).fetched = false ∧
    (get_headers (initClient "") warmFS .tokenNotFound).state.tag
      = .str "cached-token" :=
  ⟨rfl, rfl, rfl⟩

/-- C6 (amended): once a cache manager exists at the default location
(the location every request after the first consults), `clear_cache`
followed by any operation issues a fresh acquisition fetch; before any
operation has run, `clear_cache` does nothing and the next operation may
reuse an on-disk token with no fetch. -/
theorem C6_clear_cache_then_fetch (st : ClientState) (fs : FileSys)
    (fetch : FetchOutcome) (hmgr : st.cache_manager = some .default) :
    (get_headers st (client_clear_cache st fs) fetch).fetched = true := by
  cases fetch <;>
    simp [get_headers, client_clear_cache, hmgr, cache_exists_clear]

/-- C6 witness: instantiates `C6_clear_cache_then_fetch` on the warmed-up
client and filesystem. -/
theorem C6_clear_cache_then_fetch_witness :
    (get_headers warmClient (client_clear_cache warmClient warmFS)
      .tokenNotFound).fetched = true :=
  C6_clear_cache_then_fetch warmClient warmFS .tokenNotFound rfl

/-- C7: the first request of a client constructed with a caller-supplied
cache path builds the cache manager at that path, but the second request
rebuilds it at the default location — the `else` branch of
`_get_headers` lines 279-282 runs whenever a manager already exists, so
every request after the first reads and writes the default path. -/
theorem C7_cache_path_bug :
    (get_headers (initClient "/tmp/gasbuddy.json") [] .non200).state.cache_manager
      = some (.custom "/tmp/gasbuddy.json") ∧
    (get_headers (get_headers (initClient "/tmp/gasbuddy.json") [] .non200).state
      [] .non200).state.cache_manager = some .default :=
  ⟨rfl, rfl⟩

end GasBuddy
